import Mathlib

/-!
# ILI9225 framebuffer driver (`fb_ili9225.c`)

A shallow embedding of the two callbacks `init_display` and `set_addr_win`
and of the static descriptor `display`, followed by theorems about the
sequence of operations they issue.

The driver talks to the outside world only through three calls: the
framework's `reset` hook, the variadic `write_reg` macro and the kernel's
`msleep`.  The embedding threads the driver state through every statement and
records each of those calls, in program order, in the field `bus`.  The
debug macro `fbtft_par_dbg` only formats a log line and is left out.
-/

namespace FbIli9225

/-- WIDTH of the panel, `#define WIDTH 176`. -/
def WIDTH : Nat := 176

/-- HEIGHT of the panel, `#define HEIGHT 220`. -/
def HEIGHT : Nat := 220

/-- One call that leaves the driver: `par->fbtftops.reset(par)`, a
`write_reg(par, a0, a1, ...)` with its integer arguments `[a0, a1, ...]`
(the first is the register or command, the rest is the payload), or
`msleep(ms)`. -/
inductive BusOp where
  | reset : BusOp
  | write_reg (args : List Int) : BusOp
  | msleep (ms : Nat) : BusOp
  deriving DecidableEq, Repr

/-- Modelled from the spec: `struct fbtft_par` is declared in `fbtft.h`, which
is not part of the sources.  The driver reads one field of it,
`par->info->var.rotate` (the rotation setting of the framework's
display-geometry state, an unsigned 32-bit number), and reaches the bus
through it; `bus` is the record of the operations issued so far. -/
structure fbtft_par where
  rotate : Nat
  bus : List BusOp
  deriving DecidableEq, Repr

/-- Modelled from the spec: the externally supplied `reset()` hook,
`par->fbtftops.reset(par)`.  Its body belongs to the framework; the call is
recorded. -/
def reset (par : fbtft_par) : fbtft_par :=
  { par with bus := par.bus ++ [BusOp.reset] }

/-- Modelled from the spec: the `write_reg(par, ...)` macro of `fbtft.h`, a
write of a register/value pair (or of a bare command) over the framework's
bus transaction abstraction.  The call is recorded with its arguments. -/
def write_reg (par : fbtft_par) (args : List Int) : fbtft_par :=
  { par with bus := par.bus ++ [BusOp.write_reg args] }

/-- Modelled from the spec: the millisecond delay `msleep(ms)` of
`linux/delay.h`.  The call is recorded with its duration. -/
def msleep (par : fbtft_par) (ms : Nat) : fbtft_par :=
  { par with bus := par.bus ++ [BusOp.msleep ms] }

/-- The callback `init_display` (lines 35-114): the state after the call and
the returned integer code. -/
def init_display (par : fbtft_par) : fbtft_par × Int :=
  let par := reset par
  -- Power On sequence
  let par := write_reg par [0x10, 0x0000]
  let par := write_reg par [0x11, 0x0000]
  let par := write_reg par [0x12, 0x0000]
  let par := write_reg par [0x13, 0x0000]
  let par := write_reg par [0x14, 0x0000]
  let par := msleep par 20
  let par := write_reg par [0x11, 0x0018]
  let par := write_reg par [0x12, 0x1121]
  let par := write_reg par [0x13, 0x0063]
  let par := write_reg par [0x14, 0x3961]
  let par := write_reg par [0x10, 0x0800]
  let par := msleep par 10
  let par := write_reg par [0x11, 0x1038]
  let par := msleep par 30
  let par := write_reg par [0x02, 0x0100]
  let par :=
    if par.rotate % 180 ≠ 0 then
      let par := write_reg par [0x01, 0x001C]
      write_reg par [0x03, 0x1038]
    else
      let par := write_reg par [0x01, 0x011C]
      write_reg par [0x03, 0x1030]
  let par := write_reg par [0x07, 0x0000]
  let par := write_reg par [0x08, 0x0808]
  let par := write_reg par [0x0B, 0x1100]
  let par := write_reg par [0x0C, 0x0000]
  let par := write_reg par [0x0F, 0x0501]
  let par := write_reg par [0x15, 0x0020]
  let par := write_reg par [0x20, 0x0000]
  let par := write_reg par [0x21, 0x0000]
  -- Set GRAM area
  let par := write_reg par [0x30, 0x0000]
  let par := write_reg par [0x31, 0x00DB]
  let par := write_reg par [0x32, 0x0000]
  let par := write_reg par [0x33, 0x0000]
  let par := write_reg par [0x34, 0x00DB]
  let par := write_reg par [0x35, 0x0000]
  let par := write_reg par [0x36, 0x00AF]
  let par := write_reg par [0x37, 0x0000]
  let par := write_reg par [0x38, 0x00DB]
  let par := write_reg par [0x39, 0x0000]
  -- Adjust the Gamma 2.2 Curve
  let par := write_reg par [0x50, 0x0603]
  let par := write_reg par [0x51, 0x080D]
  let par := write_reg par [0x52, 0x0D0C]
  let par := write_reg par [0x53, 0x0205]
  let par := write_reg par [0x54, 0x040A]
  let par := write_reg par [0x55, 0x0703]
  let par := write_reg par [0x56, 0x0300]
  let par := write_reg par [0x57, 0x0400]
  let par := write_reg par [0x58, 0x0B00]
  let par := write_reg par [0x59, 0x0017]
  let par := write_reg par [0x0F, 0x0701]
  let par := write_reg par [0x07, 0x0012]
  let par := msleep par 50
  let par := write_reg par [0x07, 0x1017]
  (par, 0)

/-- The callback `set_addr_win` (lines 116-138): the state after the call. -/
def set_addr_win (par : fbtft_par) (xs ys xe ye : Int) : fbtft_par :=
  let par :=
    if par.rotate % 180 ≠ 0 then
      let par := write_reg par [0x38, xe]
      let par := write_reg par [0x39, xs]
      let par := write_reg par [0x36, ye]
      let par := write_reg par [0x37, ys]
      let par := write_reg par [0x21, xs]
      write_reg par [0x20, ys]
    else
      let par := write_reg par [0x36, xe]
      let par := write_reg par [0x37, xs]
      let par := write_reg par [0x38, ye]
      let par := write_reg par [0x39, ys]
      let par := write_reg par [0x20, xs]
      write_reg par [0x21, ys]
  write_reg par [0x0022]

/-- Modelled from the spec: the callback table inside `struct fbtft_display`
(`fbtft.h`, not part of the sources), restricted to the two callbacks this
driver supplies. -/
structure fbtft_ops where
  init_display : fbtft_par → fbtft_par × Int
  set_addr_win : fbtft_par → Int → Int → Int → Int → fbtft_par

/-- Modelled from the spec: `struct fbtft_display` (`fbtft.h`, not part of the
sources), restricted to the fields the static descriptor sets. -/
structure fbtft_display where
  regwidth : Nat
  width : Nat
  height : Nat
  fbtftops : fbtft_ops

/-- The static descriptor `display` (lines 141-149). -/
def display : fbtft_display :=
  { regwidth := 16
    width := WIDTH
    height := HEIGHT
    fbtftops :=
      { init_display := init_display
        set_addr_win := set_addr_win } }

/-! ## Vocabulary for the statements -/

/-- The operations a call issued: what the record `after` holds beyond the
record `before`. -/
def issued (before after : fbtft_par) : List BusOp :=
  after.bus.drop before.bus.length

/-- The payloads written to register `r`, in program order: one entry for
every `write_reg` whose first argument is `r`. -/
def written (ops : List BusOp) (r : Int) : List (List Int) :=
  ops.filterMap fun op =>
    match op with
    | BusOp.write_reg (r' :: payload) => if r' = r then some payload else none
    | _ => none

/-- The argument lists of the `write_reg` calls among `ops`, in program
order. -/
def writes (ops : List BusOp) : List (List Int) :=
  ops.filterMap fun op =>
    match op with
    | BusOp.write_reg args => some args
    | _ => none

/-- The durations of the `msleep` calls among `ops`, in program order. -/
def delays (ops : List BusOp) : List Nat :=
  ops.filterMap fun op =>
    match op with
    | BusOp.msleep ms => some ms
    | _ => none

/-- An operation with the rotation-dependent data blanked: a write to
register 0x01 or 0x03 keeps its register number and loses its payload, every
other operation is unchanged. -/
def blank_rotation_data (op : BusOp) : BusOp :=
  match op with
  | BusOp.write_reg (r :: payload) =>
      if r = 0x01 ∨ r = 0x03 then BusOp.write_reg [r] else BusOp.write_reg (r :: payload)
  | BusOp.write_reg [] => BusOp.write_reg []
  | BusOp.reset => BusOp.reset
  | BusOp.msleep ms => BusOp.msleep ms

/-- The check that an argument list is a register/value pair with the
register number in [0, 0xFF] and the value in [0, 0xFFFF]. -/
def pair_in_range (args : List Int) : Bool :=
  match args with
  | [r, v] => decide (0 ≤ r) && decide (r ≤ 0xFF) && decide (0 ≤ v) && decide (v ≤ 0xFFFF)
  | _ => false

/-- The content register `r` is left with by `ops`: the payload of the last
write to `r`, or `none` when `ops` never writes `r`. -/
def final_value (ops : List BusOp) (r : Int) : Option (List Int) :=
  (written ops r).getLast?

/-- Bit `k` of the register value `v`, as 0 or 1. -/
def bit_of (v : Int) (k : Nat) : Int :=
  (v / 2 ^ k) % 2

/-- The registers `ops` addresses, in program order: the first argument of
every `write_reg`. -/
def addressed (ops : List BusOp) : List Int :=
  (writes ops).filterMap List.head?

/-! ## Shared lemmas -/

/-- A 16-bit value has no bit set at position 16 or above. -/
theorem bit_of_high (v : Int) (k : Nat) (h0 : 0 ≤ v) (hv : v < 2 ^ 16) (hk : 16 ≤ k) :
    bit_of v k = 0 := by
  have hpow : (2 : Int) ^ 16 ≤ 2 ^ k := pow_le_pow_right₀ (by norm_num) hk
  have hdiv : v / 2 ^ k = 0 := Int.ediv_eq_zero_of_lt h0 (lt_of_lt_of_le hv hpow)
  simp [bit_of, hdiv]

/-- Two 16-bit values whose bits agree below position 16 except at position
`b` differ in exactly bit `b`. -/
theorem bit_of_differ_iff (v w : Int) (b : Nat) (hv0 : 0 ≤ v) (hv : v < 2 ^ 16)
    (hw0 : 0 ≤ w) (hw : w < 2 ^ 16) (hb : b < 16)
    (hlow : ∀ k < 16, (bit_of v k ≠ bit_of w k ↔ k = b)) (k : Nat) :
    bit_of v k ≠ bit_of w k ↔ k = b := by
  by_cases hk : k < 16
  · exact hlow k hk
  · have hk16 : 16 ≤ k := Nat.le_of_not_lt hk
    rw [bit_of_high v k hv0 hv hk16, bit_of_high w k hw0 hw hk16]
    constructor
    · intro h
      exact absurd rfl h
    · intro h
      omega

/-- What a successful `pair_in_range` check says about the argument list. -/
theorem pair_in_range_spec (args : List Int) (h : pair_in_range args = true) :
    ∃ r v : Int, args = [r, v] ∧ 0 ≤ r ∧ r ≤ 0xFF ∧ 0 ≤ v ∧ v ≤ 0xFFFF := by
  match args, h with
  | [r, v], h =>
    simp only [pair_in_range, Bool.and_eq_true, decide_eq_true_eq] at h
    exact ⟨r, v, rfl, h.1.1.1, h.1.1.2, h.1.2, h.2⟩

/-- The bus record after `set_addr_win`: the record before it followed by the
seven operations of the branch selected by `rotate % 180`. -/
theorem set_addr_win_bus (par : fbtft_par) (xs ys xe ye : Int) :
    (set_addr_win par xs ys xe ye).bus = par.bus ++
      (if par.rotate % 180 ≠ 0 then
        [BusOp.write_reg [0x38, xe], BusOp.write_reg [0x39, xs],
         BusOp.write_reg [0x36, ye], BusOp.write_reg [0x37, ys],
         BusOp.write_reg [0x21, xs], BusOp.write_reg [0x20, ys],
         BusOp.write_reg [0x22]]
      else
        [BusOp.write_reg [0x36, xe], BusOp.write_reg [0x37, xs],
         BusOp.write_reg [0x38, ye], BusOp.write_reg [0x39, ys],
         BusOp.write_reg [0x20, xs], BusOp.write_reg [0x21, ys],
         BusOp.write_reg [0x22]]) := by
  unfold set_addr_win
  split <;> simp [write_reg]

/-- When a call only appends `ops` to the record, `ops` is what it issued. -/
theorem issued_of_append (before after : fbtft_par) (ops : List BusOp)
    (h : after.bus = before.bus ++ ops) : issued before after = ops := by
  simp [issued, h]

/-- The operations `set_addr_win` issues. -/
theorem set_addr_win_issued (par : fbtft_par) (xs ys xe ye : Int) :
    issued par (set_addr_win par xs ys xe ye) =
      (if par.rotate % 180 ≠ 0 then
        [BusOp.write_reg [0x38, xe], BusOp.write_reg [0x39, xs],
         BusOp.write_reg [0x36, ye], BusOp.write_reg [0x37, ys],
         BusOp.write_reg [0x21, xs], BusOp.write_reg [0x20, ys],
         BusOp.write_reg [0x22]]
      else
        [BusOp.write_reg [0x36, xe], BusOp.write_reg [0x37, xs],
         BusOp.write_reg [0x38, ye], BusOp.write_reg [0x39, ys],
         BusOp.write_reg [0x20, xs], BusOp.write_reg [0x21, ys],
         BusOp.write_reg [0x22]]) :=
  issued_of_append par _ _ (set_addr_win_bus par xs ys xe ye)

/-- The seven operations of the rotated branch for (xs, ys, xe, ye) and those
of the non-rotated branch for (ys, xs, ye, xe) leave every register with the
same final value. -/
theorem final_value_swap (xs ys xe ye : Int) (r : Int) :
    final_value
        [BusOp.write_reg [0x38, xe], BusOp.write_reg [0x39, xs],
         BusOp.write_reg [0x36, ye], BusOp.write_reg [0x37, ys],
         BusOp.write_reg [0x21, xs], BusOp.write_reg [0x20, ys],
         BusOp.write_reg [0x22]] r =
      final_value
        [BusOp.write_reg [0x36, ye], BusOp.write_reg [0x37, ys],
         BusOp.write_reg [0x38, xe], BusOp.write_reg [0x39, xs],
         BusOp.write_reg [0x20, ys], BusOp.write_reg [0x21, xs],
         BusOp.write_reg [0x22]] r := by
  by_cases h20 : r = 0x20
  · subst h20; simp [final_value, written]
  by_cases h21 : r = 0x21
  · subst h21; simp [final_value, written]
  by_cases h22 : r = 0x22
  · subst h22; simp [final_value, written]
  by_cases h36 : r = 0x36
  · subst h36; simp [final_value, written]
  by_cases h37 : r = 0x37
  · subst h37; simp [final_value, written]
  by_cases h38 : r = 0x38
  · subst h38; simp [final_value, written]
  by_cases h39 : r = 0x39
  · subst h39; simp [final_value, written]
  simp [final_value, written, Ne.symm h20, Ne.symm h21, Ne.symm h22, Ne.symm h36,
    Ne.symm h37, Ne.symm h38, Ne.symm h39]

/-- The bus record after `init_display`: the record before it followed by the
initialisation sequence, whose two rotation-dependent values are selected by
`rotate % 180`. -/
theorem init_display_bus (par : fbtft_par) :
    (init_display par).1.bus = par.bus ++
      [BusOp.reset,
       BusOp.write_reg [0x10, 0x0000], BusOp.write_reg [0x11, 0x0000],
       BusOp.write_reg [0x12, 0x0000], BusOp.write_reg [0x13, 0x0000],
       BusOp.write_reg [0x14, 0x0000],
       BusOp.msleep 20,
       BusOp.write_reg [0x11, 0x0018], BusOp.write_reg [0x12, 0x1121],
       BusOp.write_reg [0x13, 0x0063], BusOp.write_reg [0x14, 0x3961],
       BusOp.write_reg [0x10, 0x0800],
       BusOp.msleep 10,
       BusOp.write_reg [0x11, 0x1038],
       BusOp.msleep 30,
       BusOp.write_reg [0x02, 0x0100],
       BusOp.write_reg [0x01, if par.rotate % 180 = 0 then 0x011C else 0x001C],
       BusOp.write_reg [0x03, if par.rotate % 180 = 0 then 0x1030 else 0x1038],
       BusOp.write_reg [0x07, 0x0000], BusOp.write_reg [0x08, 0x0808],
       BusOp.write_reg [0x0B, 0x1100], BusOp.write_reg [0x0C, 0x0000],
       BusOp.write_reg [0x0F, 0x0501], BusOp.write_reg [0x15, 0x0020],
       BusOp.write_reg [0x20, 0x0000], BusOp.write_reg [0x21, 0x0000],
       BusOp.write_reg [0x30, 0x0000], BusOp.write_reg [0x31, 0x00DB],
       BusOp.write_reg [0x32, 0x0000], BusOp.write_reg [0x33, 0x0000],
       BusOp.write_reg [0x34, 0x00DB], BusOp.write_reg [0x35, 0x0000],
       BusOp.write_reg [0x36, 0x00AF], BusOp.write_reg [0x37, 0x0000],
       BusOp.write_reg [0x38, 0x00DB], BusOp.write_reg [0x39, 0x0000],
       BusOp.write_reg [0x50, 0x0603], BusOp.write_reg [0x51, 0x080D],
       BusOp.write_reg [0x52, 0x0D0C], BusOp.write_reg [0x53, 0x0205],
       BusOp.write_reg [0x54, 0x040A], BusOp.write_reg [0x55, 0x0703],
       BusOp.write_reg [0x56, 0x0300], BusOp.write_reg [0x57, 0x0400],
       BusOp.write_reg [0x58, 0x0B00], BusOp.write_reg [0x59, 0x0017],
       BusOp.write_reg [0x0F, 0x0701], BusOp.write_reg [0x07, 0x0012],
       BusOp.msleep 50,
       BusOp.write_reg [0x07, 0x1017]] := by
  unfold init_display
  by_cases h : par.rotate % 180 = 0 <;> simp [h, write_reg, reset, msleep]

/-- The operations `init_display` issues. -/
theorem init_display_issued (par : fbtft_par) :
    issued par (init_display par).1 =
      [BusOp.reset,
       BusOp.write_reg [0x10, 0x0000], BusOp.write_reg [0x11, 0x0000],
       BusOp.write_reg [0x12, 0x0000], BusOp.write_reg [0x13, 0x0000],
       BusOp.write_reg [0x14, 0x0000],
       BusOp.msleep 20,
       BusOp.write_reg [0x11, 0x0018], BusOp.write_reg [0x12, 0x1121],
       BusOp.write_reg [0x13, 0x0063], BusOp.write_reg [0x14, 0x3961],
       BusOp.write_reg [0x10, 0x0800],
       BusOp.msleep 10,
       BusOp.write_reg [0x11, 0x1038],
       BusOp.msleep 30,
       BusOp.write_reg [0x02, 0x0100],
       BusOp.write_reg [0x01, if par.rotate % 180 = 0 then 0x011C else 0x001C],
       BusOp.write_reg [0x03, if par.rotate % 180 = 0 then 0x1030 else 0x1038],
       BusOp.write_reg [0x07, 0x0000], BusOp.write_reg [0x08, 0x0808],
       BusOp.write_reg [0x0B, 0x1100], BusOp.write_reg [0x0C, 0x0000],
       BusOp.write_reg [0x0F, 0x0501], BusOp.write_reg [0x15, 0x0020],
       BusOp.write_reg [0x20, 0x0000], BusOp.write_reg [0x21, 0x0000],
       BusOp.write_reg [0x30, 0x0000], BusOp.write_reg [0x31, 0x00DB],
       BusOp.write_reg [0x32, 0x0000], BusOp.write_reg [0x33, 0x0000],
       BusOp.write_reg [0x34, 0x00DB], BusOp.write_reg [0x35, 0x0000],
       BusOp.write_reg [0x36, 0x00AF], BusOp.write_reg [0x37, 0x0000],
       BusOp.write_reg [0x38, 0x00DB], BusOp.write_reg [0x39, 0x0000],
       BusOp.write_reg [0x50, 0x0603], BusOp.write_reg [0x51, 0x080D],
       BusOp.write_reg [0x52, 0x0D0C], BusOp.write_reg [0x53, 0x0205],
       BusOp.write_reg [0x54, 0x040A], BusOp.write_reg [0x55, 0x0703],
       BusOp.write_reg [0x56, 0x0300], BusOp.write_reg [0x57, 0x0400],
       BusOp.write_reg [0x58, 0x0B00], BusOp.write_reg [0x59, 0x0017],
       BusOp.write_reg [0x0F, 0x0701], BusOp.write_reg [0x07, 0x0012],
       BusOp.msleep 50,
       BusOp.write_reg [0x07, 0x1017]] :=
  issued_of_append par _ _ (init_display_bus par)

/-! ## The address window -/

/-- C1: when the display is not rotated (`rotate % 180 = 0`), `set_addr_win`
appends to the bus record exactly the writes (0x36, xe), (0x37, xs),
(0x38, ye), (0x39, ys), (0x20, xs), (0x21, ys) and then the bare command
0x0022, in this order, whatever the coordinates. -/
theorem set_addr_win_not_rotated (par : fbtft_par) (xs ys xe ye : Int)
    (h : par.rotate % 180 = 0) :
    (set_addr_win par xs ys xe ye).bus = par.bus ++
      [BusOp.write_reg [0x36, xe], BusOp.write_reg [0x37, xs],
       BusOp.write_reg [0x38, ye], BusOp.write_reg [0x39, ys],
       BusOp.write_reg [0x20, xs], BusOp.write_reg [0x21, ys],
       BusOp.write_reg [0x0022]] := by
  rw [set_addr_win_bus]
  simp [h]

/-- C1 at a concrete input: rotation 180, window (1, 2)-(3, 4), empty
record. -/
theorem set_addr_win_not_rotated_witness :
    (180 % 180 = 0) ∧
    (set_addr_win { rotate := 180, bus := [] } 1 2 3 4).bus =
      [BusOp.write_reg [0x36, 3], BusOp.write_reg [0x37, 1],
       BusOp.write_reg [0x38, 4], BusOp.write_reg [0x39, 2],
       BusOp.write_reg [0x20, 1], BusOp.write_reg [0x21, 2],
       BusOp.write_reg [0x0022]] :=
  ⟨by decide, set_addr_win_not_rotated { rotate := 180, bus := [] } 1 2 3 4 (by decide)⟩

/-- C2: when the display is rotated (`rotate % 180 ≠ 0`), `set_addr_win`
appends to the bus record exactly the writes (0x38, xe), (0x39, xs),
(0x36, ye), (0x37, ys), (0x21, xs), (0x20, ys) and then the bare command
0x0022, in this order, whatever the coordinates. -/
theorem set_addr_win_rotated (par : fbtft_par) (xs ys xe ye : Int)
    (h : par.rotate % 180 ≠ 0) :
    (set_addr_win par xs ys xe ye).bus = par.bus ++
      [BusOp.write_reg [0x38, xe], BusOp.write_reg [0x39, xs],
       BusOp.write_reg [0x36, ye], BusOp.write_reg [0x37, ys],
       BusOp.write_reg [0x21, xs], BusOp.write_reg [0x20, ys],
       BusOp.write_reg [0x0022]] := by
  rw [set_addr_win_bus]
  simp [h]

/-- C2 at a concrete input: rotation 270, window (1, 2)-(3, 4), empty
record. -/
theorem set_addr_win_rotated_witness :
    (270 % 180 ≠ 0) ∧
    (set_addr_win { rotate := 270, bus := [] } 1 2 3 4).bus =
      [BusOp.write_reg [0x38, 3], BusOp.write_reg [0x39, 1],
       BusOp.write_reg [0x36, 4], BusOp.write_reg [0x37, 2],
       BusOp.write_reg [0x21, 1], BusOp.write_reg [0x20, 2],
       BusOp.write_reg [0x0022]] :=
  ⟨by decide, set_addr_win_rotated { rotate := 270, bus := [] } 1 2 3 4 (by decide)⟩

/-- C3, the claim as stated fails: with rotation 0 (not rotated) and the
window (1, 2)-(3, 4), register 0x21 does not receive xs = 1 and register
0x20 does not receive ys = 2; they receive ys and xs. -/
theorem set_addr_win_not_rotated_not_reversed :
    (0 % 180 = 0) ∧
    written (issued { rotate := 0, bus := [] }
      (set_addr_win { rotate := 0, bus := [] } 1 2 3 4)) 0x21 ≠ [[1]] ∧
    written (issued { rotate := 0, bus := [] }
      (set_addr_win { rotate := 0, bus := [] } 1 2 3 4)) 0x20 ≠ [[2]] ∧
    written (issued { rotate := 0, bus := [] }
      (set_addr_win { rotate := 0, bus := [] } 1 2 3 4)) 0x21 = [[2]] ∧
    written (issued { rotate := 0, bus := [] }
      (set_addr_win { rotate := 0, bus := [] } 1 2 3 4)) 0x20 = [[1]] := by
  decide

/-- C3 as amended: the start coordinates are written reversed (xs to 0x21
and ys to 0x20, each once) when the display is rotated, `rotate % 180 ≠ 0`;
when it is not rotated xs goes to 0x20 and ys to 0x21, each once. -/
theorem set_addr_win_start_address (par : fbtft_par) (xs ys xe ye : Int) :
    (par.rotate % 180 ≠ 0 →
      written (issued par (set_addr_win par xs ys xe ye)) 0x21 = [[xs]] ∧
      written (issued par (set_addr_win par xs ys xe ye)) 0x20 = [[ys]]) ∧
    (par.rotate % 180 = 0 →
      written (issued par (set_addr_win par xs ys xe ye)) 0x20 = [[xs]] ∧
      written (issued par (set_addr_win par xs ys xe ye)) 0x21 = [[ys]]) := by
  rw [issued_of_append par _ _ (set_addr_win_bus par xs ys xe ye)]
  constructor <;> intro h <;> simp [h, written]

/-- C3 as amended, at concrete inputs: rotation 90 and rotation 0, window
(1, 2)-(3, 4), empty record. -/
theorem set_addr_win_start_address_witness :
    (90 % 180 ≠ 0) ∧ (0 % 180 = 0) ∧
    (written (issued { rotate := 90, bus := [] }
        (set_addr_win { rotate := 90, bus := [] } 1 2 3 4)) 0x21 = [[1]] ∧
      written (issued { rotate := 90, bus := [] }
        (set_addr_win { rotate := 90, bus := [] } 1 2 3 4)) 0x20 = [[2]]) ∧
    (written (issued { rotate := 0, bus := [] }
        (set_addr_win { rotate := 0, bus := [] } 1 2 3 4)) 0x20 = [[1]] ∧
      written (issued { rotate := 0, bus := [] }
        (set_addr_win { rotate := 0, bus := [] } 1 2 3 4)) 0x21 = [[2]]) :=
  ⟨by decide, by decide,
    (set_addr_win_start_address { rotate := 90, bus := [] } 1 2 3 4).1 (by decide),
    (set_addr_win_start_address { rotate := 0, bus := [] } 1 2 3 4).2 (by decide)⟩

/-- C4: whatever the rotation and the coordinates, `set_addr_win` issues
exactly seven operations, all appended to the record; each of the registers
0x20, 0x21, 0x36, 0x37, 0x38, 0x39 is written exactly once, with one data
word; no register other than these six and 0x22 is addressed; there is no
reset and no delay; the last operation is the command 0x0022 with no
payload, and no earlier operation addresses 0x22. -/
theorem set_addr_win_frame (par : fbtft_par) (xs ys xe ye : Int) :
    (set_addr_win par xs ys xe ye).bus =
      par.bus ++ issued par (set_addr_win par xs ys xe ye) ∧
    (set_addr_win par xs ys xe ye).rotate = par.rotate ∧
    (issued par (set_addr_win par xs ys xe ye)).length = 7 ∧
    (∀ r ∈ [(0x20 : Int), 0x21, 0x36, 0x37, 0x38, 0x39],
      ∃ v, written (issued par (set_addr_win par xs ys xe ye)) r = [[v]]) ∧
    (∀ r : Int, r ∉ [(0x20 : Int), 0x21, 0x36, 0x37, 0x38, 0x39, 0x22] →
      written (issued par (set_addr_win par xs ys xe ye)) r = []) ∧
    (writes (issued par (set_addr_win par xs ys xe ye))).length = 7 ∧
    BusOp.reset ∉ issued par (set_addr_win par xs ys xe ye) ∧
    delays (issued par (set_addr_win par xs ys xe ye)) = [] ∧
    (issued par (set_addr_win par xs ys xe ye)).getLast? =
      some (BusOp.write_reg [0x0022]) ∧
    written (issued par (set_addr_win par xs ys xe ye)) 0x22 = [[]] ∧
    written (issued par (set_addr_win par xs ys xe ye)).dropLast 0x22 = [] := by
  have hrot : (set_addr_win par xs ys xe ye).rotate = par.rotate := by
    unfold set_addr_win
    split <;> simp [write_reg]
  rw [issued_of_append par _ _ (set_addr_win_bus par xs ys xe ye)]
  refine ⟨set_addr_win_bus par xs ys xe ye, hrot, ?_⟩
  split <;> simp [written, writes, delays] <;> omega

/-! ## The initialisation sequence -/

/-- C5: for every driver state, `init_display` appends to the bus record
exactly the reset, the 45 register writes and the four delays of the listed
sequence, in the listed order, where register 0x01 receives 0x011C and
register 0x03 receives 0x1030 when `rotate % 180 = 0`, and 0x001C and 0x1038
otherwise; the delays are 20, 10, 30 and 50 ms, 110 ms in total. -/
theorem init_display_sequence (par : fbtft_par) :
    (init_display par).1.bus = par.bus ++
      [BusOp.reset,
       BusOp.write_reg [0x10, 0x0000], BusOp.write_reg [0x11, 0x0000],
       BusOp.write_reg [0x12, 0x0000], BusOp.write_reg [0x13, 0x0000],
       BusOp.write_reg [0x14, 0x0000],
       BusOp.msleep 20,
       BusOp.write_reg [0x11, 0x0018], BusOp.write_reg [0x12, 0x1121],
       BusOp.write_reg [0x13, 0x0063], BusOp.write_reg [0x14, 0x3961],
       BusOp.write_reg [0x10, 0x0800],
       BusOp.msleep 10,
       BusOp.write_reg [0x11, 0x1038],
       BusOp.msleep 30,
       BusOp.write_reg [0x02, 0x0100],
       BusOp.write_reg [0x01, if par.rotate % 180 = 0 then 0x011C else 0x001C],
       BusOp.write_reg [0x03, if par.rotate % 180 = 0 then 0x1030 else 0x1038],
       BusOp.write_reg [0x07, 0x0000], BusOp.write_reg [0x08, 0x0808],
       BusOp.write_reg [0x0B, 0x1100], BusOp.write_reg [0x0C, 0x0000],
       BusOp.write_reg [0x0F, 0x0501], BusOp.write_reg [0x15, 0x0020],
       BusOp.write_reg [0x20, 0x0000], BusOp.write_reg [0x21, 0x0000],
       BusOp.write_reg [0x30, 0x0000], BusOp.write_reg [0x31, 0x00DB],
       BusOp.write_reg [0x32, 0x0000], BusOp.write_reg [0x33, 0x0000],
       BusOp.write_reg [0x34, 0x00DB], BusOp.write_reg [0x35, 0x0000],
       BusOp.write_reg [0x36, 0x00AF], BusOp.write_reg [0x37, 0x0000],
       BusOp.write_reg [0x38, 0x00DB], BusOp.write_reg [0x39, 0x0000],
       BusOp.write_reg [0x50, 0x0603], BusOp.write_reg [0x51, 0x080D],
       BusOp.write_reg [0x52, 0x0D0C], BusOp.write_reg [0x53, 0x0205],
       BusOp.write_reg [0x54, 0x040A], BusOp.write_reg [0x55, 0x0703],
       BusOp.write_reg [0x56, 0x0300], BusOp.write_reg [0x57, 0x0400],
       BusOp.write_reg [0x58, 0x0B00], BusOp.write_reg [0x59, 0x0017],
       BusOp.write_reg [0x0F, 0x0701], BusOp.write_reg [0x07, 0x0012],
       BusOp.msleep 50,
       BusOp.write_reg [0x07, 0x1017]] ∧
    (writes (issued par (init_display par).1)).length = 45 ∧
    delays (issued par (init_display par).1) = [20, 10, 30, 50] ∧
    (delays (issued par (init_display par).1)).length = 4 ∧
    (delays (issued par (init_display par).1)).sum = 110 := by
  refine ⟨init_display_bus par, ?_⟩
  rw [init_display_issued]
  simp [writes, delays]

/-- C6: for every driver state, `init_display` calls the reset hook exactly
once and that call is the first operation it issues: no reset occurs among
the later operations, and all 45 register writes and all four delays come
after it. -/
theorem init_display_reset_first (par : fbtft_par) :
    (issued par (init_display par).1).head? = some BusOp.reset ∧
    (issued par (init_display par).1).count BusOp.reset = 1 ∧
    BusOp.reset ∉ (issued par (init_display par).1).tail ∧
    (writes (issued par (init_display par).1).tail).length = 45 ∧
    (delays (issued par (init_display par).1).tail).length = 4 := by
  rw [init_display_issued]
  simp [writes, delays]

/-- C7, the claim as stated fails: the driver states with rotation 0 and
rotation 90 (empty record) get different sequences of register/value writes
from `init_display`; register 0x01 receives 0x011C in one and 0x001C in the
other, register 0x03 receives 0x1030 in one and 0x1038 in the other. -/
theorem init_display_rotation_changes_writes :
    writes (issued { rotate := 0, bus := [] } (init_display { rotate := 0, bus := [] }).1) ≠
      writes (issued { rotate := 90, bus := [] } (init_display { rotate := 90, bus := [] }).1) ∧
    written (issued { rotate := 0, bus := [] }
      (init_display { rotate := 0, bus := [] }).1) 0x01 = [[0x011C]] ∧
    written (issued { rotate := 90, bus := [] }
      (init_display { rotate := 90, bus := [] }).1) 0x01 = [[0x001C]] ∧
    written (issued { rotate := 0, bus := [] }
      (init_display { rotate := 0, bus := [] }).1) 0x03 = [[0x1030]] ∧
    written (issued { rotate := 90, bus := [] }
      (init_display { rotate := 90, bus := [] }).1) 0x03 = [[0x1038]] := by
  simp [init_display_issued, writes, written]

/-- C7 as amended: the init sequence depends on the driver state only
through the rotation branch.  Two driver states that agree on whether
`rotate % 180 = 0` get the identical sequence of operations (reset, writes
and delays) from `init_display`; any two driver states get sequences that
are identical once the data written to registers 0x01 and 0x03 is set
aside. -/
theorem init_display_rotation_only (p1 p2 : fbtft_par) :
    ((p1.rotate % 180 = 0 ↔ p2.rotate % 180 = 0) →
      issued p1 (init_display p1).1 = issued p2 (init_display p2).1) ∧
    (issued p1 (init_display p1).1).map blank_rotation_data =
      (issued p2 (init_display p2).1).map blank_rotation_data := by
  rw [init_display_issued, init_display_issued]
  constructor
  · intro h
    by_cases h1 : p1.rotate % 180 = 0
    · simp [h1, h.mp h1]
    · have h2 : ¬ p2.rotate % 180 = 0 := fun h2 => h1 (h.mpr h2)
      simp [h1, h2]
  · simp [blank_rotation_data]

/-- C7 as amended, at concrete inputs: rotations 90 and 270, with different
records before the call. -/
theorem init_display_rotation_only_witness :
    (90 % 180 = 0 ↔ 270 % 180 = 0) ∧
    issued { rotate := 90, bus := [] } (init_display { rotate := 90, bus := [] }).1 =
      issued { rotate := 270, bus := [BusOp.reset] }
        (init_display { rotate := 270, bus := [BusOp.reset] }).1 :=
  ⟨by decide,
    (init_display_rotation_only { rotate := 90, bus := [] }
      { rotate := 270, bus := [BusOp.reset] }).1 (by decide)⟩

/-- C8: the operations `set_addr_win` issues depend on the rotation setting
only through `rotate % 180`.  Two driver states whose rotations agree modulo
180 get the identical sequence for the same coordinates; every driver state
gets either the sequence of rotation 0 or the sequence of rotation 90, and
these two sequences differ. -/
theorem set_addr_win_mod_180 (xs ys xe ye : Int) :
    (∀ p1 p2 : fbtft_par, p1.rotate % 180 = p2.rotate % 180 →
      issued p1 (set_addr_win p1 xs ys xe ye) = issued p2 (set_addr_win p2 xs ys xe ye)) ∧
    (∀ par : fbtft_par,
      issued par (set_addr_win par xs ys xe ye) =
        issued { rotate := 0, bus := [] } (set_addr_win { rotate := 0, bus := [] } xs ys xe ye) ∨
      issued par (set_addr_win par xs ys xe ye) =
        issued { rotate := 90, bus := [] }
          (set_addr_win { rotate := 90, bus := [] } xs ys xe ye)) ∧
    issued { rotate := 0, bus := [] } (set_addr_win { rotate := 0, bus := [] } xs ys xe ye) ≠
      issued { rotate := 90, bus := [] } (set_addr_win { rotate := 90, bus := [] } xs ys xe ye) := by
  refine ⟨?_, ?_, ?_⟩
  · intro p1 p2 h
    rw [issued_of_append p1 _ _ (set_addr_win_bus p1 xs ys xe ye),
      issued_of_append p2 _ _ (set_addr_win_bus p2 xs ys xe ye), h]
  · intro par
    rw [issued_of_append par _ _ (set_addr_win_bus par xs ys xe ye),
      issued_of_append _ _ _ (set_addr_win_bus { rotate := 0, bus := [] } xs ys xe ye),
      issued_of_append _ _ _ (set_addr_win_bus { rotate := 90, bus := [] } xs ys xe ye)]
    by_cases h : par.rotate % 180 = 0 <;> simp [h]
  · rw [issued_of_append _ _ _ (set_addr_win_bus { rotate := 0, bus := [] } xs ys xe ye),
      issued_of_append _ _ _ (set_addr_win_bus { rotate := 90, bus := [] } xs ys xe ye)]
    simp

/-- C8 at concrete inputs: rotations 0 and 180, and rotations 90 and 270,
window (1, 2)-(3, 4). -/
theorem set_addr_win_mod_180_witness :
    (0 % 180 = 180 % 180) ∧ (90 % 180 = 270 % 180) ∧
    issued { rotate := 0, bus := [] } (set_addr_win { rotate := 0, bus := [] } 1 2 3 4) =
      issued { rotate := 180, bus := [BusOp.reset] }
        (set_addr_win { rotate := 180, bus := [BusOp.reset] } 1 2 3 4) ∧
    issued { rotate := 90, bus := [] } (set_addr_win { rotate := 90, bus := [] } 1 2 3 4) =
      issued { rotate := 270, bus := [] } (set_addr_win { rotate := 270, bus := [] } 1 2 3 4) :=
  ⟨by decide, by decide,
    (set_addr_win_mod_180 1 2 3 4).1 { rotate := 0, bus := [] }
      { rotate := 180, bus := [BusOp.reset] } (by decide),
    (set_addr_win_mod_180 1 2 3 4).1 { rotate := 90, bus := [] }
      { rotate := 270, bus := [] } (by decide)⟩

/-- C9: `init_display` returns the integer code 0 for every driver state,
also when called through the descriptor's callback table; no driver state
makes it return a non-zero code. -/
theorem init_display_returns_zero (par : fbtft_par) :
    (init_display par).2 = 0 ∧ (display.fbtftops.init_display par).2 = 0 ∧
    ¬ ∃ p : fbtft_par, (init_display p).2 ≠ 0 := by
  refine ⟨rfl, rfl, ?_⟩
  rintro ⟨p, hp⟩
  exact hp rfl

/-- C10: the descriptor declares `regwidth = 16`, `width = 176` and
`height = 220`, and for every driver state every `write_reg` issued by
`init_display` is a register/value pair whose register number lies in
[0, 0xFF] and whose value lies in [0, 0xFFFF], below 2 ^ regwidth. -/
theorem init_display_fits_regwidth (par : fbtft_par) :
    display.regwidth = 16 ∧ display.width = 176 ∧ display.height = 220 ∧
    ∀ args ∈ writes (issued par (init_display par).1),
      ∃ r v : Int, args = [r, v] ∧ 0 ≤ r ∧ r ≤ 0xFF ∧
        0 ≤ v ∧ v ≤ 0xFFFF ∧ v < 2 ^ display.regwidth := by
  refine ⟨rfl, rfl, rfl, ?_⟩
  have hw : (2 : Int) ^ display.regwidth = 65536 := by
    show (2 : Int) ^ 16 = 65536
    norm_num
  have hall : (writes (issued par (init_display par).1)).all pair_in_range = true := by
    rw [init_display_issued]
    by_cases h : par.rotate % 180 = 0
    · simp only [h, if_true]
      decide
    · simp only [h, if_false]
      decide
  intro args hargs
  obtain ⟨r, v, rfl, h1, h2, h3, h4⟩ :=
    pair_in_range_spec args (List.all_eq_true.mp hall args hargs)
  exact ⟨r, v, rfl, h1, h2, h3, h4, by rw [hw]; omega⟩

/-! ## Control bits, full-screen window, axis swap and bounds -/

/-- C11: the rotation branch of `init_display` sets the control bits as its
comments state.  Registers 0x01 and 0x03 are written once each; when
`rotate % 180 ≠ 0` the value of 0x01 has SS (bit 8) = 0 and the value of 0x03
has AM (bit 3) = 1, when `rotate % 180 = 0` SS = 1 and AM = 0; in both cases
0x01 has SM (bit 10) = 0, GS (bit 9) = 0 and low five bits 0x1C, and 0x03 has
BGR (bit 12) = 1, ID1 (bit 5) = 1 and ID0 (bit 4) = 1; the values a rotated
and a non-rotated state give to 0x01 differ in exactly bit 8, those they give
to 0x03 in exactly bit 3. -/
theorem init_display_control_bits (par : fbtft_par) :
    (∃ r01 r03 : Int,
      written (issued par (init_display par).1) 0x01 = [[r01]] ∧
      written (issued par (init_display par).1) 0x03 = [[r03]] ∧
      (par.rotate % 180 ≠ 0 → bit_of r01 8 = 0 ∧ bit_of r03 3 = 1) ∧
      (par.rotate % 180 = 0 → bit_of r01 8 = 1 ∧ bit_of r03 3 = 0) ∧
      bit_of r01 10 = 0 ∧ bit_of r01 9 = 0 ∧ r01 % 32 = 0x1C ∧
      bit_of r03 12 = 1 ∧ bit_of r03 5 = 1 ∧ bit_of r03 4 = 1) ∧
    (∀ q : fbtft_par, par.rotate % 180 ≠ 0 → q.rotate % 180 = 0 →
      ∃ a b c d : Int,
        written (issued par (init_display par).1) 0x01 = [[a]] ∧
        written (issued q (init_display q).1) 0x01 = [[b]] ∧
        written (issued par (init_display par).1) 0x03 = [[c]] ∧
        written (issued q (init_display q).1) 0x03 = [[d]] ∧
        (∀ k : Nat, bit_of a k ≠ bit_of b k ↔ k = 8) ∧
        (∀ k : Nat, bit_of c k ≠ bit_of d k ↔ k = 3)) := by
  constructor
  · rw [init_display_issued]
    by_cases h : par.rotate % 180 = 0
    · exact ⟨0x011C, 0x1030, by simp [h, written], by simp [h, written],
        fun h2 => absurd h h2, fun _ => by decide, by decide, by decide, by decide,
        by decide, by decide, by decide⟩
    · exact ⟨0x001C, 0x1038, by simp [h, written], by simp [h, written],
        fun _ => by decide, fun h2 => absurd h2 h, by decide, by decide, by decide,
        by decide, by decide, by decide⟩
  · intro q hp hq
    rw [init_display_issued, init_display_issued]
    refine ⟨0x001C, 0x011C, 0x1038, 0x1030, by simp [hp, written], by simp [hq, written],
      by simp [hp, written], by simp [hq, written], ?_, ?_⟩
    · intro k
      refine bit_of_differ_iff 0x001C 0x011C 8 (by decide) (by decide) (by decide) (by decide)
        (by decide) ?_ k
      intro j hj
      interval_cases j <;> decide
    · intro k
      refine bit_of_differ_iff 0x1038 0x1030 3 (by decide) (by decide) (by decide) (by decide)
        (by decide) ?_ k
      intro j hj
      interval_cases j <;> decide

/-- C11 at concrete inputs: the rotated state with rotation 90 and the
non-rotated state with rotation 0, empty records. -/
theorem init_display_control_bits_witness :
    (90 % 180 ≠ 0) ∧ (0 % 180 = 0) ∧
    ∃ a b c d : Int,
      written (issued { rotate := 90, bus := [] }
        (init_display { rotate := 90, bus := [] }).1) 0x01 = [[a]] ∧
      written (issued { rotate := 0, bus := [] }
        (init_display { rotate := 0, bus := [] }).1) 0x01 = [[b]] ∧
      written (issued { rotate := 90, bus := [] }
        (init_display { rotate := 90, bus := [] }).1) 0x03 = [[c]] ∧
      written (issued { rotate := 0, bus := [] }
        (init_display { rotate := 0, bus := [] }).1) 0x03 = [[d]] ∧
      (∀ k : Nat, bit_of a k ≠ bit_of b k ↔ k = 8) ∧
      (∀ k : Nat, bit_of c k ≠ bit_of d k ↔ k = 3) :=
  ⟨by decide, by decide,
    (init_display_control_bits { rotate := 90, bus := [] }).2 { rotate := 0, bus := [] }
      (by decide) (by decide)⟩

/-- C12: after `init_display`, whatever the rotation, the window and address
registers hold the full panel of the descriptor: 0x36 = WIDTH - 1 = 175,
0x37 = 0, 0x38 = HEIGHT - 1 = 219, 0x39 = 0, 0x20 = 0, 0x21 = 0.  A state
with the same rotation is left with the same six values by
`set_addr_win(0, 0, 175, 219)` when `rotate % 180 = 0` and by
`set_addr_win(0, 0, 219, 175)` when `rotate % 180 ≠ 0`. -/
theorem init_display_full_window (par : fbtft_par) :
    (final_value (issued par (init_display par).1) 0x36 = some [((WIDTH - 1 : Nat) : Int)] ∧
      final_value (issued par (init_display par).1) 0x37 = some [0] ∧
      final_value (issued par (init_display par).1) 0x38 = some [((HEIGHT - 1 : Nat) : Int)] ∧
      final_value (issued par (init_display par).1) 0x39 = some [0] ∧
      final_value (issued par (init_display par).1) 0x20 = some [0] ∧
      final_value (issued par (init_display par).1) 0x21 = some [0]) ∧
    (display.width - 1 = 175 ∧ display.height - 1 = 219 ∧
      WIDTH = display.width ∧ HEIGHT = display.height) ∧
    (∀ q : fbtft_par, q.rotate = par.rotate → par.rotate % 180 = 0 →
      ∀ r ∈ [(0x20 : Int), 0x21, 0x36, 0x37, 0x38, 0x39],
        final_value (issued par (init_display par).1) r =
          final_value (issued q (set_addr_win q 0 0 175 219)) r) ∧
    (∀ q : fbtft_par, q.rotate = par.rotate → par.rotate % 180 ≠ 0 →
      ∀ r ∈ [(0x20 : Int), 0x21, 0x36, 0x37, 0x38, 0x39],
        final_value (issued par (init_display par).1) r =
          final_value (issued q (set_addr_win q 0 0 219 175)) r) := by
  refine ⟨?_, ⟨rfl, rfl, rfl, rfl⟩, ?_, ?_⟩
  · rw [init_display_issued]
    simp [final_value, written, WIDTH, HEIGHT]
  · intro q hq h
    rw [init_display_issued, set_addr_win_issued, hq]
    simp [h, final_value, written]
  · intro q hq h
    rw [init_display_issued, set_addr_win_issued, hq]
    simp [h, final_value, written]

/-- C12 at concrete inputs: rotation 0 with the window (0, 0)-(175, 219)
and rotation 90 with the window (0, 0)-(219, 175), the call made on the
state `init_display` returns. -/
theorem init_display_full_window_witness :
    (0 % 180 = 0) ∧ (90 % 180 ≠ 0) ∧
    (∀ r ∈ [(0x20 : Int), 0x21, 0x36, 0x37, 0x38, 0x39],
      final_value (issued { rotate := 0, bus := [] }
          (init_display { rotate := 0, bus := [] }).1) r =
        final_value (issued (init_display { rotate := 0, bus := [] }).1
          (set_addr_win (init_display { rotate := 0, bus := [] }).1 0 0 175 219)) r) ∧
    (∀ r ∈ [(0x20 : Int), 0x21, 0x36, 0x37, 0x38, 0x39],
      final_value (issued { rotate := 90, bus := [] }
          (init_display { rotate := 90, bus := [] }).1) r =
        final_value (issued (init_display { rotate := 90, bus := [] }).1
          (set_addr_win (init_display { rotate := 90, bus := [] }).1 0 0 219 175)) r) :=
  ⟨by decide, by decide,
    (init_display_full_window { rotate := 0, bus := [] }).2.2.1
      (init_display { rotate := 0, bus := [] }).1 rfl (by decide),
    (init_display_full_window { rotate := 90, bus := [] }).2.2.2
      (init_display { rotate := 90, bus := [] }).1 rfl (by decide)⟩

/-- C13: the rotated layout is the non-rotated layout with the two axes
swapped.  For a rotated state `p` and a non-rotated state `q`,
`set_addr_win(xs, ys, xe, ye)` on `p` and `set_addr_win(ys, xs, ye, xe)` on
`q` leave every register with the same final value, in particular 0x20,
0x21, 0x36, 0x37, 0x38 and 0x39, while the two calls address the six
registers in different orders. -/
theorem set_addr_win_axis_swap (p q : fbtft_par) (xs ys xe ye : Int)
    (hp : p.rotate % 180 ≠ 0) (hq : q.rotate % 180 = 0) :
    (∀ r : Int,
      final_value (issued p (set_addr_win p xs ys xe ye)) r =
        final_value (issued q (set_addr_win q ys xs ye xe)) r) ∧
    final_value (issued p (set_addr_win p xs ys xe ye)) 0x20 = some [ys] ∧
    final_value (issued p (set_addr_win p xs ys xe ye)) 0x21 = some [xs] ∧
    final_value (issued p (set_addr_win p xs ys xe ye)) 0x36 = some [ye] ∧
    final_value (issued p (set_addr_win p xs ys xe ye)) 0x37 = some [ys] ∧
    final_value (issued p (set_addr_win p xs ys xe ye)) 0x38 = some [xe] ∧
    final_value (issued p (set_addr_win p xs ys xe ye)) 0x39 = some [xs] ∧
    addressed (issued p (set_addr_win p xs ys xe ye)) =
      [0x38, 0x39, 0x36, 0x37, 0x21, 0x20, 0x22] ∧
    addressed (issued q (set_addr_win q ys xs ye xe)) =
      [0x36, 0x37, 0x38, 0x39, 0x20, 0x21, 0x22] ∧
    addressed (issued p (set_addr_win p xs ys xe ye)) ≠
      addressed (issued q (set_addr_win q ys xs ye xe)) := by
  rw [set_addr_win_issued, set_addr_win_issued]
  simp only [hp, hq, ne_eq, not_false_eq_true, not_true_eq_false, if_true, if_false]
  exact ⟨fun r => final_value_swap xs ys xe ye r,
    by simp [final_value, written], by simp [final_value, written],
    by simp [final_value, written], by simp [final_value, written],
    by simp [final_value, written], by simp [final_value, written],
    by simp [addressed, writes], by simp [addressed, writes], by simp [addressed, writes]⟩

/-- C13 at a concrete input: rotation 90 with the window (1, 2)-(3, 4)
against rotation 0 with the window (2, 1)-(4, 3). -/
theorem set_addr_win_axis_swap_witness :
    (90 % 180 ≠ 0) ∧ (0 % 180 = 0) ∧
    (∀ r : Int,
      final_value (issued { rotate := 90, bus := [] }
          (set_addr_win { rotate := 90, bus := [] } 1 2 3 4)) r =
        final_value (issued { rotate := 0, bus := [] }
          (set_addr_win { rotate := 0, bus := [] } 2 1 4 3)) r) :=
  ⟨by decide, by decide,
    (set_addr_win_axis_swap { rotate := 90, bus := [] } { rotate := 0, bus := [] } 1 2 3 4
      (by decide) (by decide)).1⟩

/-- C14: for an in-bounds window, `set_addr_win` programs a well-formed
window inside the 176x220 panel with the RAM address at its start corner.
If `rotate % 180 = 0` and 0 ≤ xs ≤ xe ≤ 175 and 0 ≤ ys ≤ ye ≤ 219, or
`rotate % 180 ≠ 0` and 0 ≤ xs ≤ xe ≤ 219 and 0 ≤ ys ≤ ye ≤ 175, then each of
the six registers is written once and the values satisfy
0 ≤ reg 0x37 ≤ reg 0x36 ≤ 0xAF, 0 ≤ reg 0x39 ≤ reg 0x38 ≤ 0xDB,
reg 0x20 = reg 0x37 and reg 0x21 = reg 0x39; the end values are below the
descriptor's width and height. -/
theorem set_addr_win_in_bounds (par : fbtft_par) (xs ys xe ye : Int)
    (h : (par.rotate % 180 = 0 ∧ 0 ≤ xs ∧ xs ≤ xe ∧ xe ≤ 175 ∧ 0 ≤ ys ∧ ys ≤ ye ∧ ye ≤ 219) ∨
      (par.rotate % 180 ≠ 0 ∧ 0 ≤ xs ∧ xs ≤ xe ∧ xe ≤ 219 ∧ 0 ≤ ys ∧ ys ≤ ye ∧ ye ≤ 175)) :
    ∃ v20 v21 v36 v37 v38 v39 : Int,
      written (issued par (set_addr_win par xs ys xe ye)) 0x20 = [[v20]] ∧
      written (issued par (set_addr_win par xs ys xe ye)) 0x21 = [[v21]] ∧
      written (issued par (set_addr_win par xs ys xe ye)) 0x36 = [[v36]] ∧
      written (issued par (set_addr_win par xs ys xe ye)) 0x37 = [[v37]] ∧
      written (issued par (set_addr_win par xs ys xe ye)) 0x38 = [[v38]] ∧
      written (issued par (set_addr_win par xs ys xe ye)) 0x39 = [[v39]] ∧
      0 ≤ v37 ∧ v37 ≤ v36 ∧ v36 ≤ 0xAF ∧
      0 ≤ v39 ∧ v39 ≤ v38 ∧ v38 ≤ 0xDB ∧
      v20 = v37 ∧ v21 = v39 ∧
      v36 < (display.width : Int) ∧ v38 < (display.height : Int) := by
  have hw : (display.width : Int) = 176 := rfl
  have hh : (display.height : Int) = 220 := rfl
  rw [set_addr_win_issued, hw, hh]
  rcases h with ⟨hr, h1, h2, h3, h4, h5, h6⟩ | ⟨hr, h1, h2, h3, h4, h5, h6⟩
  · refine ⟨xs, ys, xe, xs, ye, ys, by simp [hr, written], by simp [hr, written],
      by simp [hr, written], by simp [hr, written], by simp [hr, written],
      by simp [hr, written], ?_⟩
    refine ⟨?_, ?_, ?_, ?_, ?_, ?_, ?_, ?_, ?_, ?_⟩ <;> omega
  · refine ⟨ys, xs, ye, ys, xe, xs, by simp [hr, written], by simp [hr, written],
      by simp [hr, written], by simp [hr, written], by simp [hr, written],
      by simp [hr, written], ?_⟩
    refine ⟨?_, ?_, ?_, ?_, ?_, ?_, ?_, ?_, ?_, ?_⟩ <;> omega

/-- C14 at a concrete input: rotation 90 with the full rotated window
(0, 0)-(219, 175), empty record. -/
theorem set_addr_win_in_bounds_witness :
    ((90 % 180 = 0 ∧ (0 : Int) ≤ 0 ∧ (0 : Int) ≤ 219 ∧ (219 : Int) ≤ 175 ∧
        (0 : Int) ≤ 0 ∧ (0 : Int) ≤ 175 ∧ (175 : Int) ≤ 219) ∨
      (90 % 180 ≠ 0 ∧ (0 : Int) ≤ 0 ∧ (0 : Int) ≤ 219 ∧ (219 : Int) ≤ 219 ∧
        (0 : Int) ≤ 0 ∧ (0 : Int) ≤ 175 ∧ (175 : Int) ≤ 175)) ∧
    ∃ v20 v21 v36 v37 v38 v39 : Int,
      written (issued { rotate := 90, bus := [] }
        (set_addr_win { rotate := 90, bus := [] } 0 0 219 175)) 0x20 = [[v20]] ∧
      written (issued { rotate := 90, bus := [] }
        (set_addr_win { rotate := 90, bus := [] } 0 0 219 175)) 0x21 = [[v21]] ∧
      written (issued { rotate := 90, bus := [] }
        (set_addr_win { rotate := 90, bus := [] } 0 0 219 175)) 0x36 = [[v36]] ∧
      written (issued { rotate := 90, bus := [] }
        (set_addr_win { rotate := 90, bus := [] } 0 0 219 175)) 0x37 = [[v37]] ∧
      written (issued { rotate := 90, bus := [] }
        (set_addr_win { rotate := 90, bus := [] } 0 0 219 175)) 0x38 = [[v38]] ∧
      written (issued { rotate := 90, bus := [] }
        (set_addr_win { rotate := 90, bus := [] } 0 0 219 175)) 0x39 = [[v39]] ∧
      0 ≤ v37 ∧ v37 ≤ v36 ∧ v36 ≤ 0xAF ∧
      0 ≤ v39 ∧ v39 ≤ v38 ∧ v38 ≤ 0xDB ∧
      v20 = v37 ∧ v21 = v39 ∧
      v36 < (display.width : Int) ∧ v38 < (display.height : Int) :=
  ⟨Or.inr (by decide),
    set_addr_win_in_bounds { rotate := 90, bus := [] } 0 0 219 175 (Or.inr (by decide))⟩

end FbIli9225
